import Mathlib

/-!
Shallow embedding of the `typed_permissions` Rust crate
(`src/typed_permissions/src/lib.rs` and the derive macro in
`src/derive/src/lib.rs`).

The crate expresses permission requirements at the type level: each
declared permission atom becomes a zero-sized struct whose `dispatch`
returns a singleton `HashSet`, and the generic structs `And<Z, T, U>` and
`Or<Z, T, U>` compose such requirements.  We reify the closed family of
these types as the inductive `Expr α` (atom leaves over the permission
enum `α`, binary `and` / `or` nodes), and reify each trait method as a
function on `Expr α`:

* `dispatch` — the `Dispatch::dispatch` implementations: singleton for a
  generated atom struct, union of the children for `And` and for `Or`.
* `check_match` — the provided (default) method `Dispatch::check_match`,
  `ops.is_superset(&Self::dispatch())`.  No impl in the crate overrides
  it, so it applies uniformly to every node kind.
* `try_into_token` — the provided method `Dispatch::try_into_token`
  (`Some` iff `Self::check_match(ops)`), together with the override in
  `impl Dispatch for Or`, which returns `Some` iff
  `T::check_match(ops) || U::check_match(ops)`.
* `PhantomToken` / `new_unchecked` — the zero-payload proof value and its
  unconditional constructor.

Rust's `HashSet<T>` over the (finite, `Eq + Hash`) permission enum is
modelled as `Finset α` with decidable equality on `α`.
-/

namespace TypedPermissions

/-- The closed family of permission-expression types: a generated atom
struct wrapping one permission of the enum `α`, or `And` / `Or` applied to
two further expression types. -/
inductive Expr (α : Type) where
  | atom : α → Expr α
  | and : Expr α → Expr α → Expr α
  | or : Expr α → Expr α → Expr α

/-- `Dispatch::dispatch`.  The derive macro gives each generated atom
struct a `dispatch` returning the singleton set of its own enum variant
(`src/derive/src/lib.rs`, the generated `impl`), and both `And` and `Or`
implement `dispatch` as `T::dispatch().union(&U::dispatch())`
(`src/typed_permissions/src/lib.rs`, the two `Dispatch` impls). -/
def dispatch {α : Type} [DecidableEq α] : Expr α → Finset α
  | Expr.atom a => {a}
  | Expr.and l r => dispatch l ∪ dispatch r
  | Expr.or l r => dispatch l ∪ dispatch r

/-- The provided method `Dispatch::check_match`:
`ops.is_superset(&Self::dispatch())`.  No impl in the crate overrides it,
so every node kind — `Or` included — answers `check_match` with this
superset test. -/
def check_match {α : Type} [DecidableEq α] (E : Expr α) (ops : Finset α) : Bool :=
  decide (dispatch E ⊆ ops)

/-- `PhantomToken<T>`: a zero-payload proof value bound to the expression
type `T` (a `PhantomData` marker in Rust). -/
structure PhantomToken {α : Type} (E : Expr α) where

/-- `PhantomToken::new_unchecked`: manufactures a token for any expression
`E`, taking no granted set at all. -/
def PhantomToken.new_unchecked {α : Type} (E : Expr α) : PhantomToken E :=
  PhantomToken.mk

/-- `Dispatch::try_into_token`.  The provided default body returns
`Some(PhantomToken::new_unchecked())` iff `Self::check_match(ops)`; the
`Dispatch` impl for `Or` overrides it to return a token iff
`T::check_match(ops) || U::check_match(ops)` — note the children are
queried through `check_match`, the default superset test, for every child
node kind. -/
def try_into_token {α : Type} [DecidableEq α] : (E : Expr α) → Finset α → Option (PhantomToken E)
  | Expr.atom a, ops =>
      if check_match (Expr.atom a) ops then some (PhantomToken.new_unchecked _) else none
  | Expr.and l r, ops =>
      if check_match (Expr.and l r) ops then some (PhantomToken.new_unchecked _) else none
  | Expr.or l r, ops =>
      if check_match l ops || check_match r ops then some (PhantomToken.new_unchecked _) else none

/-- The satisfaction rule the code applies at a node, read off from
`try_into_token`: the default superset test for atom and `And` nodes, and
the disjunction of the two children's `check_match` for an `Or` node. -/
def matchRule {α : Type} [DecidableEq α] : Expr α → Finset α → Bool
  | Expr.or l r, ops => check_match l ops || check_match r ops
  | E, ops => check_match E ops

/-- The matching predicate as the specification words it (its section 4.2):
the default superset-of-dispatch rule for atom and `And` nodes, and for
`Or(l, r)` the disjunction of the children's own matching rules, evaluated
recursively.  Stated for comparison with the code's `try_into_token`. -/
def specMatch {α : Type} [DecidableEq α] : Expr α → Finset α → Bool
  | Expr.atom a, ops => decide (dispatch (Expr.atom a) ⊆ ops)
  | Expr.and l r, ops => decide (dispatch (Expr.and l r) ⊆ ops)
  | Expr.or l r, ops => specMatch l ops || specMatch r ops

/-- Number of atom leaves of an expression tree. -/
def Expr.atomCount {α : Type} : Expr α → Nat
  | Expr.atom _ => 1
  | Expr.and l r => l.atomCount + r.atomCount
  | Expr.or l r => l.atomCount + r.atomCount

theorem check_match_iff {α : Type} [DecidableEq α] (E : Expr α) (ops : Finset α) :
    check_match E ops = true ↔ dispatch E ⊆ ops := by
  simp [check_match]

theorem try_into_token_isSome {α : Type} [DecidableEq α] (E : Expr α) (ops : Finset α) :
    (try_into_token E ops).isSome = matchRule E ops := by
  cases E with
  | atom a => simp only [try_into_token, matchRule]; split <;> simp_all
  | and l r => simp only [try_into_token, matchRule]; split <;> simp_all
  | or l r => simp only [try_into_token, matchRule]; split <;> simp_all

theorem dispatch_nonempty {α : Type} [DecidableEq α] (E : Expr α) :
    (dispatch E).Nonempty := by
  induction E with
  | atom a => exact Finset.singleton_nonempty a
  | and l r hl hr => exact Finset.Nonempty.mono Finset.subset_union_left hl
  | or l r hl hr => exact Finset.Nonempty.mono Finset.subset_union_left hl

theorem check_match_empty {α : Type} [DecidableEq α] (E : Expr α) :
    check_match E (∅ : Finset α) = false := by
  simp only [check_match, decide_eq_false_iff_not]
  intro hsub
  rcases dispatch_nonempty E with ⟨a, ha⟩
  exact absurd (hsub ha) (Finset.not_mem_empty a)

theorem check_match_mono {α : Type} [DecidableEq α] (E : Expr α) {G G' : Finset α}
    (hGG : G ⊆ G') (h : check_match E G = true) : check_match E G' = true := by
  rw [check_match_iff] at h ⊢
  exact h.trans hGG

theorem dispatch_card_le {α : Type} [DecidableEq α] (E : Expr α) :
    (dispatch E).card ≤ E.atomCount := by
  induction E with
  | atom a => simp [dispatch, Expr.atomCount]
  | and l r hl hr =>
      calc (dispatch (Expr.and l r)).card ≤ (dispatch l).card + (dispatch r).card :=
            Finset.card_union_le _ _
        _ ≤ (Expr.and l r).atomCount := Nat.add_le_add hl hr
  | or l r hl hr =>
      calc (dispatch (Expr.or l r)).card ≤ (dispatch l).card + (dispatch r).card :=
            Finset.card_union_le _ _
        _ ≤ (Expr.or l r).atomCount := Nat.add_le_add hl hr

/-- C6: for every declared permission atom `a`, dispatch on the atomic
expression returns exactly the singleton set containing `a`. -/
theorem atom_dispatch_singleton (a : ℕ) :
    dispatch (Expr.atom a) = ({a} : Finset ℕ) := rfl

/-- C5: for every pair of expressions `l` and `r`, the dispatch of
`And(l, r)` and of `Or(l, r)` are both the union of the children's
dispatch sets. -/
theorem and_or_dispatch_union (l r : Expr ℕ) :
    dispatch (Expr.and l r) = dispatch l ∪ dispatch r ∧
    dispatch (Expr.or l r) = dispatch l ∪ dispatch r :=
  ⟨rfl, rfl⟩

/-- C4: for an atom or `And` expression, matching (success of
`try_into_token`) holds iff the granted set is a superset of the
expression's dispatch set; in particular `match(And(l, r), G)` iff
`G ⊇ dispatch(l) ∪ dispatch(r)`. -/
theorem atom_and_match_superset :
    (∀ (a : ℕ) (G : Finset ℕ),
      (try_into_token (Expr.atom a) G).isSome = true ↔ dispatch (Expr.atom a) ⊆ G) ∧
    (∀ (l r : Expr ℕ) (G : Finset ℕ),
      (try_into_token (Expr.and l r) G).isSome = true ↔ dispatch l ∪ dispatch r ⊆ G) := by
  constructor
  · intro a G
    rw [try_into_token_isSome]
    exact check_match_iff (Expr.atom a) G
  · intro l r G
    rw [try_into_token_isSome]
    exact check_match_iff (Expr.and l r) G

/-- C9: dispatch is a total function of the expression's shape alone (it
takes no granted set); on every finite expression tree it evaluates to a
nonempty set of atoms whose size is bounded by the number of atom
leaves. -/
theorem dispatch_total_of_shape (E : Expr ℕ) :
    (dispatch E).Nonempty ∧ (dispatch E).card ≤ E.atomCount :=
  ⟨dispatch_nonempty E, dispatch_card_le E⟩

/-- C7: `new_unchecked` produces a token for any expression `E` without
inspecting any granted set — in particular even at a granted set on which
issuance fails, a token still exists and is the one `new_unchecked`
builds. -/
theorem new_unchecked_unconditional (E : Expr ℕ) (G : Finset ℕ)
    (_h : try_into_token E G = none) :
    ∃ t : PhantomToken E, t = PhantomToken.new_unchecked E :=
  ⟨PhantomToken.new_unchecked E, rfl⟩

theorem new_unchecked_unconditional_witness :
    try_into_token (Expr.atom 0) (∅ : Finset ℕ) = none ∧
    ∃ t : PhantomToken (Expr.atom (0 : ℕ)), t = PhantomToken.new_unchecked (Expr.atom 0) :=
  ⟨rfl, new_unchecked_unconditional (Expr.atom 0) ∅ rfl⟩

/-- C8: on the empty granted set, issuance fails for every expression
(each expression contains at least one atom, so its dispatch set is
nonempty), while the unchecked constructor still yields a token. -/
theorem empty_granted_issue_fails (E : Expr ℕ) :
    try_into_token E (∅ : Finset ℕ) = none ∧ Nonempty (PhantomToken E) := by
  refine ⟨?_, ⟨PhantomToken.new_unchecked E⟩⟩
  cases E with
  | atom a => simp [try_into_token, check_match_empty]
  | and l r => simp [try_into_token, check_match_empty]
  | or l r => simp [try_into_token, check_match_empty]

/-- C10: matching and issuance are monotone in the granted set — enlarging
the granted set never turns a successful issuance into a failure. -/
theorem try_into_token_mono (E : Expr ℕ) (G G' : Finset ℕ) (hGG : G ⊆ G')
    (h : (try_into_token E G).isSome = true) :
    (try_into_token E G').isSome = true := by
  rw [try_into_token_isSome] at h ⊢
  cases E with
  | atom a => exact check_match_mono _ hGG h
  | and l r => exact check_match_mono _ hGG h
  | or l r =>
      simp only [matchRule, Bool.or_eq_true] at h ⊢
      rcases h with h | h
      · exact Or.inl (check_match_mono _ hGG h)
      · exact Or.inr (check_match_mono _ hGG h)

theorem try_into_token_mono_witness :
    (try_into_token (Expr.atom 0) ({0, 1} : Finset ℕ)).isSome = true :=
  try_into_token_mono (Expr.atom 0) {0} {0, 1} (by decide) (by decide)

/-- C1 counterexample: with `E = Or(Or(Atom 0, Atom 1), Atom 2)` and
`G = {0}`, the left child matches under its own `Or` rule (its own
`try_into_token` succeeds on `G`), yet `try_into_token` on `E` fails,
because the `Or` override queries each child through the default
superset-of-dispatch `check_match`, which demands both atoms of the
nested `Or`. -/
theorem or_match_not_childwise :
    ¬ ((try_into_token
          (Expr.or (Expr.or (Expr.atom 0) (Expr.atom 1)) (Expr.atom 2))
          ({0} : Finset ℕ)).isSome = true ↔
        ((try_into_token (Expr.or (Expr.atom 0) (Expr.atom 1)) ({0} : Finset ℕ)).isSome = true ∨
         (try_into_token (Expr.atom 2) ({0} : Finset ℕ)).isSome = true)) := by
  decide

/-- C1 amended: `match(Or(l, r), G)` holds iff `check_match(l, G)` or
`check_match(r, G)` — each child is evaluated by the default
superset-of-dispatch test, not by invoking the child's own matching rule
(the two coincide for atom and `And` children but not for a nested
`Or`). -/
theorem or_match_childwise_check (l r : Expr ℕ) (G : Finset ℕ) :
    (try_into_token (Expr.or l r) G).isSome = (check_match l G || check_match r G) :=
  try_into_token_isSome (Expr.or l r) G

/-- C2 counterexample: at `E = Or(Or(Atom 10, Atom 11), Atom 12)` and
`G = {10}`, the specification's section 4.2 rule for `E`'s own node kind
is satisfied, but `try_into_token` returns nothing. -/
theorem issue_differs_from_spec_match :
    ¬ ((try_into_token
          (Expr.or (Expr.or (Expr.atom 10) (Expr.atom 11)) (Expr.atom 12))
          ({10} : Finset ℕ)).isSome = true ↔
        specMatch
          (Expr.or (Expr.or (Expr.atom 10) (Expr.atom 11)) (Expr.atom 12))
          ({10} : Finset ℕ) = true) := by
  decide

/-- C2 amended: issuance is a pure function of `(E, G)` and returns a
token iff the rule the code actually applies at `E`'s top node holds:
the superset-of-dispatch test for atom and `And` nodes, and for
`Or(l, r)` the disjunction of the children's default `check_match`
(rather than each child's own matching rule). -/
theorem issue_iff_match_rule (E : Expr ℕ) (G : Finset ℕ) :
    (try_into_token E G).isSome = matchRule E G :=
  try_into_token_isSome E G

/-- C3 counterexample: `Or(Or(Atom 3, Atom 4), Atom 5)` and
`Or(Atom 3, Or(Atom 4, Atom 5))` are built from the same atoms with the
same connectives in different nesting, yet at `G = {3}` the first fails
to match while the second matches. -/
theorem or_reassociation_changes_match :
    (try_into_token
        (Expr.or (Expr.or (Expr.atom 3) (Expr.atom 4)) (Expr.atom 5))
        ({3} : Finset ℕ)).isSome = false ∧
    (try_into_token
        (Expr.or (Expr.atom 3) (Expr.or (Expr.atom 4) (Expr.atom 5)))
        ({3} : Finset ℕ)).isSome = true := by
  decide

/-- C3 amended: reordering the two arguments of an `And` or of an `Or`,
and reassociating nested `And`s, never changes the match result for any
granted set; reassociating nested `Or`s can change it. -/
theorem match_invariant_under_and_reorder :
    (∀ (l r : Expr ℕ) (G : Finset ℕ),
      (try_into_token (Expr.and l r) G).isSome = (try_into_token (Expr.and r l) G).isSome) ∧
    (∀ (a b c : Expr ℕ) (G : Finset ℕ),
      (try_into_token (Expr.and (Expr.and a b) c) G).isSome
        = (try_into_token (Expr.and a (Expr.and b c)) G).isSome) ∧
    (∀ (l r : Expr ℕ) (G : Finset ℕ),
      (try_into_token (Expr.or l r) G).isSome = (try_into_token (Expr.or r l) G).isSome) := by
  refine ⟨?_, ?_, ?_⟩
  · intro l r G
    rw [try_into_token_isSome, try_into_token_isSome]
    simp only [matchRule, check_match, dispatch, decide_eq_decide]
    rw [Finset.union_comm]
  · intro a b c G
    rw [try_into_token_isSome, try_into_token_isSome]
    simp only [matchRule, check_match, dispatch, decide_eq_decide]
    rw [Finset.union_assoc]
  · intro l r G
    rw [try_into_token_isSome, try_into_token_isSome]
    simp only [matchRule]
    rw [Bool.or_comm]

end TypedPermissions
